import Mathlib

/-!
Verification development for the `langchain_article1` repository.

The repository is a collection of demonstration scripts around a chat-model
abstraction: configuration (`src/config.py`), tool definitions and a
single-round tool-use loop (`src/tool_usage.py`), and a multi-model research
assistant (`src/research_assistant.py`).

This file gives a shallow embedding of the data model and operations those
modules define, and proves the frozen claims about them.  Python strings are
modelled as `List Char`; Python dict/kwargs values as a small `PyVal` type;
fallible Python code as `Except`; and every source of nondeterminism
(`random.randint`, `random.choice`, `datetime.now`) is made an explicit
input.  Model calls (`model.ainvoke`) are modelled by an oracle
`Nat → ModelResponse` giving the response to the k-th call of a run.
-/

/-- Python strings are modelled as lists of characters. -/
abbrev PStr := List Char

/-- Lift a Lean string literal into the `PStr` model. -/
def pstr (s : String) : PStr := s.data

/-- Python `str.join`: `joinSep sep [a, b, c] = a ++ sep ++ b ++ sep ++ c`. -/
def joinSep (sep : PStr) : List PStr → PStr
  | [] => []
  | [x] => x
  | x :: y :: xs => x ++ sep ++ joinSep sep (y :: xs)

/-- The characters Python `str.strip()` removes by default (ASCII whitespace). -/
def isPySpace (c : Char) : Bool :=
  c = ' ' || c = '\t' || c = '\n' || c = '\r' || c = '\x0b' || c = '\x0c'

/-- Python `str.strip()` (no argument): drop whitespace at both ends. -/
def pyStripWs (s : PStr) : PStr :=
  ((s.dropWhile isPySpace).reverse.dropWhile isPySpace).reverse

/-- Python `str.lstrip(chars)`: drop leading characters that are in `cs`. -/
def pyLstrip (cs : List Char) (s : PStr) : PStr :=
  s.dropWhile (fun c => cs.contains c)

/-- Python `str.lower()` (ASCII fragment). -/
def pyLower (s : PStr) : PStr := s.map Char.toLower

/-- Boolean prefix test on character lists. -/
def isPre : PStr → PStr → Bool
  | [], _ => true
  | _ :: _, [] => false
  | a :: as, b :: bs => a = b && isPre as bs

/-- Python `needle in hay` for strings: substring test. -/
def subStr (needle hay : PStr) : Bool :=
  match hay with
  | [] => isPre needle []
  | _ :: t => isPre needle hay || subStr needle t

/-- Python `str.split(sep)` for a single-character separator. -/
def splitOnChar (sep : Char) : PStr → List PStr
  | [] => [[]]
  | c :: cs =>
    match splitOnChar sep cs with
    | [] => [[c]]
    | r :: rs => if c = sep then [] :: r :: rs else (c :: r) :: rs

/-- Decimal rendering of a natural number, as in Python `str(n)`. -/
def natStr (n : Nat) : PStr := (toString n).data

/-- Decimal rendering of an integer, as in Python `str(i)`. -/
def intStr (i : Int) : PStr := (toString i).data

/-- Python truthiness of an optional string (`None` and `""` are falsy). -/
def pyTruthy : Option PStr → Bool
  | none => false
  | some s => !s.isEmpty

/-- The ASCII single-quote character (written indirectly to keep source
literals free of quote characters). -/
def squote : Char := Char.ofNat 39

/-! ### `src/tool_usage.py` — tools

`get_weather` (lines 13-25): picks a random condition out of four and a random
temperature in 15..30, and formats `f"{city}: {condition}, {temp}°C"`.  The two
random draws are explicit inputs here. -/

/-- The `conditions` list of `get_weather`. -/
def conditions : List PStr :=
  [pstr "Sunny", pstr "Cloudy", pstr "Rainy", pstr "Partly Cloudy"]

/-- The tool `get_weather` from `src/tool_usage.py`, with `random.choice` and
`random.randint(15, 30)` made explicit inputs `choice` and `temp`. -/
def get_weather (city : PStr) (choice : Fin 4) (temp : Int) : PStr :=
  city ++ pstr ": " ++ conditions.getD choice.val [] ++ pstr ", " ++ intStr temp ++ pstr "°C"

/-! ### `src/tool_usage.py` — `calculate` (lines 27-49)

The source evaluates the expression with Python `eval` under empty builtins
and an environment of the non-dunder names of the `math` module plus `abs`
and `round`; any exception is caught and rendered as `f"Error: {e}"`.

The embedding models the integer-arithmetic fragment of that restricted
`eval`: integer literals, `+ - * / **`, unary signs, parentheses, and calls
to the integer-valued allowed functions (`abs`, `round`, `factorial`, `gcd`,
`isqrt`).  Allowed names whose value lies outside the integer fragment
(float constants such as `pi`, float-valued functions, true division) map to
the explicit error `PyErr.nonIntValue`; no theorem below depends on those
inputs.  A name outside the allow-list raises `NameError` exactly as the
source does. -/

/-- Errors of the modelled restricted `eval` (all are caught by `calculate`). -/
inductive PyErr
  | syntaxError
  | nameError (n : PStr)
  | valueError
  | typeError
  | nonIntValue
deriving DecidableEq

/-- The non-dunder names of Python 3.11 `math`, plus `abs` and `round`
(lines 39-44 of `src/tool_usage.py`). -/
def allowedNames : List PStr :=
  [pstr "acos", pstr "acosh", pstr "asin", pstr "asinh", pstr "atan",
   pstr "atan2", pstr "atanh", pstr "cbrt", pstr "ceil", pstr "comb",
   pstr "copysign", pstr "cos", pstr "cosh", pstr "degrees", pstr "dist",
   pstr "e", pstr "erf", pstr "erfc", pstr "exp", pstr "exp2",
   pstr "expm1", pstr "fabs", pstr "factorial", pstr "floor", pstr "fmod",
   pstr "frexp", pstr "fsum", pstr "gamma", pstr "gcd", pstr "hypot",
   pstr "inf", pstr "isclose", pstr "isfinite", pstr "isinf", pstr "isnan",
   pstr "isqrt", pstr "lcm", pstr "ldexp", pstr "lgamma", pstr "log",
   pstr "log10", pstr "log1p", pstr "log2", pstr "modf", pstr "nan",
   pstr "nextafter", pstr "perm", pstr "pi", pstr "pow", pstr "prod",
   pstr "radians", pstr "remainder", pstr "sin", pstr "sinh", pstr "sqrt",
   pstr "tan", pstr "tanh", pstr "tau", pstr "trunc", pstr "ulp",
   pstr "abs", pstr "round"]

/-- Tokens of the modelled expression language. -/
inductive Tok
  | num (n : Nat)
  | ident (s : PStr)
  | plus | minus | star | slash | dstar | lparen | rparen | comma
deriving DecidableEq

/-- Decimal digit test. -/
def isDigitC (c : Char) : Bool := '0' ≤ c && c ≤ '9'

/-- First character of a Python identifier. -/
def isIdentStart (c : Char) : Bool := c.isAlpha || c = '_'

/-- Subsequent character of a Python identifier. -/
def isIdentChar (c : Char) : Bool := c.isAlpha || c = '_' || isDigitC c

/-- Numeric value of a digit run. -/
def digitsToNat (ds : List Char) : Nat :=
  ds.foldl (fun a c => 10 * a + (c.toNat - '0'.toNat)) 0

/-- Fuel-indexed tokenizer; the fuel is an upper bound on the input length,
so it never runs out when called through `tokenize`. -/
def tokGo : Nat → PStr → Except PyErr (List Tok)
  | _, [] => .ok []
  | 0, _ :: _ => .error .syntaxError
  | Nat.succ f, c :: cs =>
    if isPySpace c then tokGo f cs
    else if isDigitC c then
      match tokGo f ((c :: cs).dropWhile isDigitC) with
      | .ok ts => .ok (Tok.num (digitsToNat ((c :: cs).takeWhile isDigitC)) :: ts)
      | .error e => .error e
    else if isIdentStart c then
      match tokGo f ((c :: cs).dropWhile isIdentChar) with
      | .ok ts => .ok (Tok.ident ((c :: cs).takeWhile isIdentChar) :: ts)
      | .error e => .error e
    else if c = '+' then (tokGo f cs).map (Tok.plus :: ·)
    else if c = '-' then (tokGo f cs).map (Tok.minus :: ·)
    else if c = '*' then
      match cs with
      | '*' :: cs2 => (tokGo f cs2).map (Tok.dstar :: ·)
      | _ => (tokGo f cs).map (Tok.star :: ·)
    else if c = '/' then (tokGo f cs).map (Tok.slash :: ·)
    else if c = '(' then (tokGo f cs).map (Tok.lparen :: ·)
    else if c = ')' then (tokGo f cs).map (Tok.rparen :: ·)
    else if c = ',' then (tokGo f cs).map (Tok.comma :: ·)
    else .error .syntaxError

/-- Tokenize an input string. -/
def tokenize (s : PStr) : Except PyErr (List Tok) := tokGo s.length s

mutual
/-- Expressions of the modelled fragment. -/
inductive PExpr
  | lit (n : Nat)
  | name (s : PStr)
  | neg (a : PExpr)
  | posi (a : PExpr)
  | add (a b : PExpr)
  | sub (a b : PExpr)
  | mul (a b : PExpr)
  | div (a b : PExpr)
  | pow (a b : PExpr)
  | call (f : PStr) (args : PArgs)
/-- Argument lists of a call. -/
inductive PArgs
  | nil
  | cons (a : PExpr) (as : PArgs)
end

mutual
/-- Grammar rule: expr is term ((+|-) term)*. -/
def pExpr : Nat → List Tok → Except PyErr (PExpr × List Tok)
  | 0, _ => .error .syntaxError
  | Nat.succ f, ts =>
    match pTerm f ts with
    | .error e => .error e
    | .ok (t, r) => pExprLoop f t r

/-- Left-associated chain of `+`/`-`. -/
def pExprLoop : Nat → PExpr → List Tok → Except PyErr (PExpr × List Tok)
  | 0, _, _ => .error .syntaxError
  | Nat.succ f, acc, ts =>
    match ts with
    | Tok.plus :: rest =>
      match pTerm f rest with
      | .error e => .error e
      | .ok (t, r) => pExprLoop f (PExpr.add acc t) r
    | Tok.minus :: rest =>
      match pTerm f rest with
      | .error e => .error e
      | .ok (t, r) => pExprLoop f (PExpr.sub acc t) r
    | _ => .ok (acc, ts)

/-- Grammar rule: term is factor ((*|/) factor)*. -/
def pTerm : Nat → List Tok → Except PyErr (PExpr × List Tok)
  | 0, _ => .error .syntaxError
  | Nat.succ f, ts =>
    match pFactor f ts with
    | .error e => .error e
    | .ok (t, r) => pTermLoop f t r

/-- Left-associated chain of `*`/`/`. -/
def pTermLoop : Nat → PExpr → List Tok → Except PyErr (PExpr × List Tok)
  | 0, _, _ => .error .syntaxError
  | Nat.succ f, acc, ts =>
    match ts with
    | Tok.star :: rest =>
      match pFactor f rest with
      | .error e => .error e
      | .ok (t, r) => pTermLoop f (PExpr.mul acc t) r
    | Tok.slash :: rest =>
      match pFactor f rest with
      | .error e => .error e
      | .ok (t, r) => pTermLoop f (PExpr.div acc t) r
    | _ => .ok (acc, ts)

/-- Grammar rule: factor is (+|-) factor, or power. -/
def pFactor : Nat → List Tok → Except PyErr (PExpr × List Tok)
  | 0, _ => .error .syntaxError
  | Nat.succ f, Tok.minus :: rest =>
    match pFactor f rest with
    | .error e => .error e
    | .ok (a, r) => .ok (PExpr.neg a, r)
  | Nat.succ f, Tok.plus :: rest =>
    match pFactor f rest with
    | .error e => .error e
    | .ok (a, r) => .ok (PExpr.posi a, r)
  | Nat.succ f, ts => pPower f ts

/-- Grammar rule: power is atom (** factor)?, right-associative as in Python. -/
def pPower : Nat → List Tok → Except PyErr (PExpr × List Tok)
  | 0, _ => .error .syntaxError
  | Nat.succ f, ts =>
    match pAtom f ts with
    | .error e => .error e
    | .ok (a, r) =>
      match r with
      | Tok.dstar :: r2 =>
        match pFactor f r2 with
        | .error e => .error e
        | .ok (b, r3) => .ok (PExpr.pow a b, r3)
      | _ => .ok (a, r)

/-- Grammar rule: atom is a number, a name, a call, or a parenthesized expr. -/
def pAtom : Nat → List Tok → Except PyErr (PExpr × List Tok)
  | 0, _ => .error .syntaxError
  | Nat.succ _, Tok.num n :: rest => .ok (PExpr.lit n, rest)
  | Nat.succ f, Tok.ident s :: rest =>
    (match rest with
     | Tok.lparen :: Tok.rparen :: r2 => .ok (PExpr.call s PArgs.nil, r2)
     | Tok.lparen :: r2 =>
       match pArgs f r2 with
       | .error e => .error e
       | .ok (args, r3) => .ok (PExpr.call s args, r3)
     | _ => .ok (PExpr.name s, rest))
  | Nat.succ f, Tok.lparen :: rest =>
    (match pExpr f rest with
     | .error e => .error e
     | .ok (e, r) =>
       match r with
       | Tok.rparen :: r2 => .ok (e, r2)
       | _ => .error .syntaxError)
  | Nat.succ _, _ => .error .syntaxError

/-- Grammar rule: args is expr (, expr)* followed by the closing parenthesis, which is consumed. -/
def pArgs : Nat → List Tok → Except PyErr (PArgs × List Tok)
  | 0, _ => .error .syntaxError
  | Nat.succ f, ts =>
    match pExpr f ts with
    | .error e => .error e
    | .ok (e, r) =>
      match r with
      | Tok.comma :: r2 =>
        (match pArgs f r2 with
         | .error e => .error e
         | .ok (es, r3) => .ok (PArgs.cons e es, r3))
      | Tok.rparen :: r2 => .ok (PArgs.cons e PArgs.nil, r2)
      | _ => .error .syntaxError
end

/-- Combine two evaluation results with a binary integer operation. -/
def evalBin (op : Int → Int → Int) : Except PyErr Int → Except PyErr Int → Except PyErr Int
  | .ok v, .ok w => .ok (op v w)
  | .error e, _ => .error e
  | .ok _, .error e => .error e

/-- Apply an allowed function to integer arguments.  The integer-valued ones
are computed; the float-valued ones are the explicit `nonIntValue` boundary. -/
def applyFn (f : PStr) (vs : List Int) : Except PyErr Int :=
  if f = pstr "abs" then
    match vs with
    | [v] => .ok v.natAbs
    | _ => .error .typeError
  else if f = pstr "round" then
    match vs with
    | [v] => .ok v
    | [v, _] => .ok v
    | _ => .error .typeError
  else if f = pstr "factorial" then
    match vs with
    | [v] => if v < 0 then .error .valueError else .ok (Nat.factorial v.toNat : Int)
    | _ => .error .typeError
  else if f = pstr "gcd" then
    .ok (Int.ofNat (vs.foldl (fun a v => Nat.gcd a v.natAbs) 0))
  else if f = pstr "isqrt" then
    match vs with
    | [v] => if v < 0 then .error .valueError else .ok (Nat.sqrt v.toNat : Int)
    | _ => .error .typeError
  else .error .nonIntValue

mutual
/-- Evaluate an expression in the allow-list environment.  Values outside the
integer fragment (true division, float constants and functions) are the
explicit error `nonIntValue`; a name outside the allow-list is `nameError`. -/
def evalE : PExpr → Except PyErr Int
  | PExpr.lit n => .ok (n : Int)
  | PExpr.name s =>
    if allowedNames.contains s then .error .nonIntValue else .error (.nameError s)
  | PExpr.neg a =>
    match evalE a with
    | .ok v => .ok (-v)
    | .error e => .error e
  | PExpr.posi a => evalE a
  | PExpr.add a b => evalBin (· + ·) (evalE a) (evalE b)
  | PExpr.sub a b => evalBin (· - ·) (evalE a) (evalE b)
  | PExpr.mul a b => evalBin (· * ·) (evalE a) (evalE b)
  | PExpr.div _ _ => .error .nonIntValue
  | PExpr.pow a b =>
    match evalE a, evalE b with
    | .ok v, .ok w => if w < 0 then .error .nonIntValue else .ok (v ^ w.toNat)
    | .error e, _ => .error e
    | _, .error e => .error e
  | PExpr.call f args =>
    if allowedNames.contains f then
      match evalArgs args with
      | .error e => .error e
      | .ok vs => applyFn f vs
    else .error (.nameError f)

/-- Evaluate an argument list left to right. -/
def evalArgs : PArgs → Except PyErr (List Int)
  | PArgs.nil => .ok []
  | PArgs.cons a as =>
    match evalE a, evalArgs as with
    | .ok v, .ok vs => .ok (v :: vs)
    | .error e, _ => .error e
    | _, .error e => .error e
end

/-- The restricted `eval` of `calculate`: tokenize, parse, evaluate. -/
def pyEvalExpr (s : PStr) : Except PyErr Int :=
  match tokenize s with
  | .error e => .error e
  | .ok toks =>
    match pExpr (toks.length * 8 + 16) toks with
    | .error e => .error e
    | .ok (e, []) => evalE e
    | .ok (_, _ :: _) => .error .syntaxError

/-- Render an error the way `f"Error: {e}"` does (message text for errors
outside the modelled fragment is approximate; no theorem depends on it). -/
def errMsg : PyErr → PStr
  | .syntaxError => pstr "invalid syntax (<string>, line 1)"
  | .nameError n => pstr "name \x27" ++ n ++ pstr "\x27 is not defined"
  | .valueError => pstr "math domain error"
  | .typeError => pstr "wrong number of arguments"
  | .nonIntValue => pstr "value outside the modelled integer fragment"

/-- The tool `calculate` from `src/tool_usage.py` lines 27-49: evaluate under the
allow-list; a success is `f"Result: {result}"`, any exception is caught and
returned as `f"Error: {e}"` — never re-raised. -/
def calculate (expression : PStr) : PStr :=
  match pyEvalExpr expression with
  | .ok v => pstr "Result: " ++ intStr v
  | .error e => pstr "Error: " ++ errMsg e

/-! ### `src/config.py` — `ModelConfig`

`ModelConfig.__init__` reads environment variables; the environment is the
explicit `PyEnv` record here (`os.getenv` gives `None` for an unset
variable, hence `Option PStr` for the two API keys; the other fields are
always defaulted strings).  `get_model` (lines 28-60) raises `ValueError`
when the selected provider needs a credential that is missing, and
`get_all_models` (lines 62-74) tries all three providers, keeping the
successes. -/

/-- The configuration state built by `ModelConfig.__init__`. -/
structure PyEnv where
  provider : PStr
  openai_api_key : Option PStr
  anthropic_api_key : Option PStr
  openai_model : PStr
  anthropic_model : PStr
  ollama_model : PStr
  ollama_base_url : PStr
deriving DecidableEq

/-- A constructed chat-model handle (`ChatOpenAI` / `ChatAnthropic` /
`ChatOllama` with the constructor arguments the source passes). -/
inductive ChatModel
  | openai (key mdl : PStr) (temperature : ℚ)
  | anthropic (key mdl : PStr) (temperature : ℚ)
  | ollama (mdl url : PStr) (temperature : ℚ)
deriving DecidableEq

/-- The method `ModelConfig.get_model`: `provider = provider or self.provider` (so an
empty-string argument falls back, by Python truthiness), then a credential
check for openai/anthropic; ollama needs no credential; an unrecognized
provider raises `ValueError`. -/
def get_model (cfg : PyEnv) (provider? : Option PStr) (temperature : ℚ) :
    Except PStr ChatModel :=
  let provider :=
    match provider? with
    | some p => if p = [] then cfg.provider else p
    | none => cfg.provider
  if provider = pstr "openai" then
    if pyTruthy cfg.openai_api_key then
      .ok (.openai (cfg.openai_api_key.getD []) cfg.openai_model temperature)
    else .error (pstr "OPENAI_API_KEY not set in environment")
  else if provider = pstr "anthropic" then
    if pyTruthy cfg.anthropic_api_key then
      .ok (.anthropic (cfg.anthropic_api_key.getD []) cfg.anthropic_model temperature)
    else .error (pstr "ANTHROPIC_API_KEY not set in environment")
  else if provider = pstr "ollama" then
    .ok (.ollama cfg.ollama_model cfg.ollama_base_url temperature)
  else .error (pstr "Unknown provider: " ++ provider)

/-- The provider list `get_all_models` iterates over. -/
def providersList : List PStr := [pstr "openai", pstr "anthropic", pstr "ollama"]

/-- The method `ModelConfig.get_all_models`: try each provider with the default
temperature 0.7; a failure is caught (a diagnostic is printed) and that
provider is simply omitted from the resulting dict. -/
def get_all_models (cfg : PyEnv) : List (PStr × ChatModel) :=
  providersList.filterMap (fun p =>
    match get_model cfg (some p) 0.7 with
    | .ok m => some (p, m)
    | .error _ => none)

/-! ### `src/research_assistant.py` — data model and tools -/

/-- The record `ResearchQuery` (lines 13-22).  `depth` defaults to `"moderate"` and
`focus_areas` to `[]` in the source; callers here always pass them. -/
structure ResearchQuery where
  topic : PStr
  depth : PStr
  focus_areas : List PStr
deriving DecidableEq

/-- The record `ResearchResult` (lines 24-34); `confidence_score` is declared with the
bounds `ge=0, le=1`. -/
structure ResearchResult where
  topic : PStr
  summary : PStr
  key_findings : List PStr
  sources_consulted : List PStr
  confidence_score : ℚ
  model_used : PStr
  timestamp : PStr
deriving DecidableEq

/-- The five format strings of `search_papers` (lines 48-54), each mentioning
the topic. -/
def papersList (topic : PStr) : List PStr :=
  [[squote] ++ topic ++ [squote] ++ pstr " - Comprehensive Review (2024)",
   pstr "Advances in " ++ topic ++ pstr ": Recent Developments (2023)",
   pstr "Understanding " ++ topic ++ pstr ": A Practical Guide (2024)",
   topic ++ pstr " Applications in Industry (2023)",
   pstr "Future of " ++ topic ++ pstr ": Predictions and Trends (2024)"]

/-- Python list slicing `xs[:stop]`, including the negative-stop case
(`xs[:-1]` is all but the last element). -/
def pySliceTo (stop : Int) (xs : List α) : List α :=
  if 0 ≤ stop then xs.take stop.toNat
  else xs.take ((xs.length : Int) + stop).toNat

/-- The tool `search_papers` (lines 37-55): format `f"Found {len(papers[:limit])}
papers:\n"` followed by the newline-joined `papers[:limit]`.  The `limit`
parameter defaults to 5 at the tool layer. -/
def search_papers (topic : PStr) (limit : Int) : PStr :=
  pstr "Found " ++ natStr (pySliceTo limit (papersList topic)).length ++
    pstr " papers:\n" ++ joinSep (pstr "\n") (pySliceTo limit (papersList topic))

/-- The four `random.randint` draws of `get_statistics`. -/
abbrev StatRand := Int × Int × Int × Int

/-- The tool `get_statistics` (lines 57-77) with the four random draws explicit. -/
def get_statistics (topic : PStr) (st : StatRand) : PStr :=
  pstr "Statistics for " ++ topic ++ pstr ":\n    - Annual growth rate: " ++
    intStr st.1 ++ pstr "%\n    - Industry adoption: " ++ intStr st.2.1 ++
    pstr "%\n    - Investment (billions): $" ++ intStr st.2.2.1 ++
    pstr "B\n    - Research papers published (2023): " ++ intStr st.2.2.2

/-- The generic fallback opinion (`opinions["default"]`, line 93). -/
def defaultOpinion (topic : PStr) : PStr :=
  topic ++ pstr " shows promising potential but requires careful implementation."

/-- The `opinions` dict of `get_expert_opinion` (lines 89-94) in insertion
order; the `"default"` entry is part of the iterated dict, as in the source. -/
def opinionsTable (topic : PStr) : List (PStr × PStr) :=
  [(pstr "ai", pstr "AI will transform every industry, but ethical considerations are crucial."),
   (pstr "blockchain", pstr "Blockchain\x27s real value lies in transparency and decentralization."),
   (pstr "quantum", pstr "Quantum computing will revolutionize cryptography and drug discovery."),
   (pstr "default", defaultOpinion topic)]

/-- The lookup loop of `get_expert_opinion` (lines 96-100): first key that is
a substring of the lowercased topic wins; otherwise the default opinion. -/
def findOpinion (topic : PStr) : List (PStr × PStr) → PStr
  | [] => pstr "Expert opinion on " ++ topic ++ pstr ": " ++ defaultOpinion topic
  | (k, op) :: rest =>
    if subStr k (pyLower topic) then pstr "Expert opinion on " ++ topic ++ pstr ": " ++ op
    else findOpinion topic rest

/-- The tool `get_expert_opinion` (lines 79-100). -/
def get_expert_opinion (topic : PStr) : PStr :=
  findOpinion topic (opinionsTable topic)

/-! ### `src/research_assistant.py` — the tool-use loop

A model response (`AIMessage`) carries text content and a list of tool-call
requests, each with a name, an argument dict and a call id.  Argument values
are the primitive types the demo tools take (strings and integers). -/

/-- A primitive Python value in a tool-call argument dict. -/
inductive PyVal
  | s (v : PStr)
  | i (v : Int)
deriving DecidableEq

/-- A tool-call argument dict, in insertion order. -/
abbrev Args := List (PStr × PyVal)

/-- One `ToolInvocationRequest` of a model response. -/
structure ToolCall where
  name : PStr
  args : Args
  id : PStr
deriving DecidableEq

/-- A model response: text content plus tool-call requests. -/
structure ModelResponse where
  content : PStr
  tool_calls : List ToolCall
deriving DecidableEq

/-- A message of the conversation turn. -/
inductive Msg
  | human (content : PStr)
  | ai (r : ModelResponse)
  | toolMsg (content : PStr) (tid : PStr)
deriving DecidableEq

/-- The tool-call id of a tool message (`[]` for other messages). -/
def msgToolId : Msg → PStr
  | .toolMsg _ tid => tid
  | _ => []

/-- Count the `ToolMessage` entries of a transcript. -/
def countToolMsgs (ms : List Msg) : Nat :=
  (ms.filter (fun m => match m with | .toolMsg _ _ => true | _ => false)).length

/-- Argument-validation failures of a tool invocation (`pydantic`
`ValidationError` at the `tool_fn.invoke(tool_call["args"])` boundary). -/
inductive ToolErr
  | missingArg (k : PStr)
  | badType (k : PStr)
deriving DecidableEq

/-- Faults `research` can raise (all uncaught inside `research` itself). -/
inductive RErr
  | noCapable
  | promptKey (depth : PStr)
  | toolKey (name : PStr)
  | toolArgs (e : ToolErr)
deriving DecidableEq

/-- Look up a key in an argument dict. -/
def getArg (a : Args) (k : PStr) : Option PyVal :=
  (a.find? (fun p => p.1 = k)).map (fun p => p.2)

/-- Fetch a required string argument. -/
def getStrArg (a : Args) (k : PStr) : Except ToolErr PStr :=
  match getArg a k with
  | some (.s v) => .ok v
  | some (.i _) => .error (.badType k)
  | none => .error (.missingArg k)

/-- Fetch an optional integer argument with a default. -/
def getIntArgD (a : Args) (k : PStr) (d : Int) : Except ToolErr Int :=
  match getArg a k with
  | some (.i v) => .ok v
  | some (.s _) => .error (.badType k)
  | none => .ok d

/-- Python repr of a primitive value, as in the dict repr. -/
def reprVal : PyVal → PStr
  | .s v => [squote] ++ v ++ [squote]
  | .i v => intStr v

/-- Python repr of an argument dict (x7b/x7d escapes are the brace characters). -/
def reprArgs (a : Args) : PStr :=
  pstr "\x7b" ++
    joinSep (pstr ", ") (a.map (fun p => [squote] ++ p.1 ++ [squote] ++ pstr ": " ++ reprVal p.2)) ++
    pstr "\x7d"

/-- The string appended to `sources` for one tool call (line 174):
`f"{tool_call[\x27name\x27]}({tool_call[\x27args\x27]})"`. -/
def reprCall (tc : ToolCall) : PStr :=
  tc.name ++ pstr "(" ++ reprArgs tc.args ++ pstr ")"

/-- Dispatch one tool call the way lines 177-178 do: `globals()` lookup by
name (a miss is an uncaught `KeyError`), then invoke the tool body on the
argument dict.  The three registered research tools are total once their
arguments validate; `get_statistics` takes its four random draws from `st`. -/
def runResearchTool (st : StatRand) (name : PStr) (a : Args) : Except RErr PStr :=
  if name = pstr "search_papers" then
    match getStrArg a (pstr "topic"), getIntArgD a (pstr "limit") 5 with
    | .ok topic, .ok limit => .ok (search_papers topic limit)
    | .error e, _ => .error (.toolArgs e)
    | _, .error e => .error (.toolArgs e)
  else if name = pstr "get_statistics" then
    match getStrArg a (pstr "topic") with
    | .ok topic => .ok (get_statistics topic st)
    | .error e => .error (.toolArgs e)
  else if name = pstr "get_expert_opinion" then
    match getStrArg a (pstr "topic") with
    | .ok topic => .ok (get_expert_opinion topic)
    | .error e => .error (.toolArgs e)
  else .error (.toolKey name)

/-- The tool loop of lines 172-184: walk the requested calls in order,
recording a `sources` entry for each call reached (the source appends it
before the lookup), appending one `ToolMessage` per successful execution,
and stopping at the first failure.  Returns the appended tool messages, the
`sources` entries, and the fault, if any.  `stats` supplies the random draws
of the i-th call. -/
def processCalls (stats : Nat → StatRand) (i : Nat) :
    List ToolCall → List Msg × List PStr × Option RErr
  | [] => ([], [], none)
  | tc :: rest =>
    match runResearchTool (stats i) tc.name tc.args with
    | .error e => ([], [reprCall tc], some e)
    | .ok res =>
      let r := processCalls stats (i + 1) rest
      (Msg.toolMsg res tc.id :: r.1, reprCall tc :: r.2.1, r.2.2)

/-! ### `src/research_assistant.py` — model selection (lines 137-151) -/

/-- The preference fallback: `openai`, then `anthropic`, then the first
remaining tool-capable model; `ValueError` when none exist. -/
def selectFallback (toolModels : List PStr) : Except RErr PStr :=
  if pstr "openai" ∈ toolModels then .ok (pstr "openai")
  else if pstr "anthropic" ∈ toolModels then .ok (pstr "anthropic")
  else
    match toolModels with
    | [] => .error .noCapable
    | m :: _ => .ok m

/-- Model selection: `if model_name and model_name in self.tool_models` —
note the Python truthiness of `model_name`, under which an explicitly given
empty-string name falls through to the preference order. -/
def selectModel (modelName? : Option PStr) (toolModels : List PStr) : Except RErr PStr :=
  match modelName? with
  | some n => if n ≠ [] ∧ n ∈ toolModels then .ok n else selectFallback toolModels
  | none => selectFallback toolModels

/-! ### `src/research_assistant.py` — prompts (lines 118-128) -/

/-- The `"quick"` research template, as a formatter of `topic`/`focus_areas`. -/
def promptQuick (topic focus : PStr) : PStr :=
  pstr "Provide a brief overview of " ++ topic ++ pstr ". Focus on: " ++ focus

/-- The `"moderate"` research template. -/
def promptModerate (topic focus : PStr) : PStr :=
  pstr "Research " ++ topic ++ pstr " comprehensively.\n            Focus areas: " ++
    focus ++
    pstr "\n            Use available tools to gather information.\n            Provide a balanced analysis."

/-- The `"deep"` research template. -/
def promptDeep (topic focus : PStr) : PStr :=
  pstr "Conduct thorough research on " ++ topic ++ pstr ".\n            Focus areas: " ++
    focus ++
    pstr "\n            Use all available tools to gather data, statistics, and expert opinions.\n            Provide a detailed analysis with multiple perspectives."

/-- The `self.prompts` dict lookup `self.prompts[query.depth]` (line 154):
`none` models the uncaught `KeyError` for a depth outside the table. -/
def lookupPrompt (depth : PStr) : Option (PStr → PStr → PStr) :=
  if depth = pstr "quick" then some promptQuick
  else if depth = pstr "moderate" then some promptModerate
  else if depth = pstr "deep" then some promptDeep
  else none

/-- Line 157: `", ".join(query.focus_areas) if query.focus_areas else
"general overview"`. -/
def focusStr (fa : List PStr) : PStr :=
  if fa = [] then pstr "general overview" else joinSep (pstr ", ") fa

/-! ### `src/research_assistant.py` — output shaping (lines 189-207) -/

/-- Key-findings extraction (lines 190-196): over the newline-split content,
keep each line whose stripped form is nonempty and starts with `-` or `•`,
as `line.strip().lstrip("- •")`, capped at 5. -/
def extractFindings (content : PStr) : List PStr :=
  ((splitOnChar '\n' content).filterMap (fun line =>
    let l := pyStripWs line
    if l ≠ [] ∧ (isPre (pstr "-") l || isPre (pstr "•") l) then
      some (pyLstrip (pstr "- •") l)
    else none)).take 5

/-- The claim-side reading of the same extraction: the bullet lines
(stripped, marker removed) of the split content, capped at 5. -/
def specKeyFindings (content : PStr) : List PStr :=
  ((((splitOnChar '\n' content).map pyStripWs).filter
      (fun l => isPre (pstr "-") l || isPre (pstr "•") l)).map
    (pyLstrip (pstr "- •"))).take 5

/-- The summary field (line 201): `content[:500] + "..." if len(content) > 500
else content`. -/
def summaryOf (content : PStr) : PStr :=
  if 500 < content.length then content.take 500 ++ pstr "..." else content

/-- The `ResearchResult` construction of lines 199-207 (`key_findings or
[...]`, `sources or [...]`, `0.85 if sources else 0.75`). -/
def mkResult (topic content : PStr) (sources : List PStr) (used now : PStr) :
    ResearchResult :=
  { topic := topic
    summary := summaryOf content
    key_findings := if extractFindings content = [] then [pstr "Research completed"]
                    else extractFindings content
    sources_consulted := if sources = [] then [pstr "Direct model knowledge"] else sources
    confidence_score := if sources = [] then (0.75 : ℚ) else (0.85 : ℚ)
    model_used := used
    timestamp := now }

/-- Observables of one `research` run: the returned result or the uncaught
fault, the number of `model.ainvoke` calls issued, and the final message
list. -/
structure RunOut where
  result : Except RErr ResearchResult
  modelCalls : Nat
  transcript : List Msg

/-- The method `MultiModelResearchAssistant.research` (lines 133-207).  `toolModels` is
the key list of `self.tool_models` in insertion order; `oracle k` is the
response of the k-th `model.ainvoke` call; `stats i` supplies the random
draws of the i-th tool call; `now` is `datetime.now().isoformat()`. -/
def researchRun (toolModels : List PStr) (oracle : Nat → ModelResponse)
    (stats : Nat → StatRand) (now : PStr) (query : ResearchQuery)
    (modelName? : Option PStr) : RunOut :=
  match selectModel modelName? toolModels with
  | .error _ => { result := .error .noCapable, modelCalls := 0, transcript := [] }
  | .ok used =>
    match lookupPrompt query.depth with
    | none => { result := .error (.promptKey query.depth), modelCalls := 0, transcript := [] }
    | some fmt =>
      let msgs0 := [Msg.human (fmt query.topic (focusStr query.focus_areas))]
      let r0 := oracle 0
      let msgs1 := msgs0 ++ [Msg.ai r0]
      if r0.tool_calls = [] then
        { result := .ok (mkResult query.topic r0.content [] used now)
          modelCalls := 1
          transcript := msgs1 }
      else
        let p := processCalls stats 0 r0.tool_calls
        match p.2.2 with
        | some e => { result := .error e, modelCalls := 1, transcript := msgs1 ++ p.1 }
        | none =>
          let r1 := oracle 1
          { result := .ok (mkResult query.topic r1.content p.2.1 used now)
            modelCalls := 2
            transcript := msgs1 ++ p.1 }

/-- The loop body of `compare_models`, iterating the remaining model names
with the full key list fixed for selection. -/
def compareModelsGo (toolModels : List PStr) (oracles : PStr → Nat → ModelResponse)
    (stats : PStr → Nat → StatRand) (now : PStr) (query : ResearchQuery) :
    List PStr → List (PStr × ResearchResult)
  | [] => []
  | m :: rest =>
    match (researchRun toolModels (oracles m) (stats m) now query (some m)).result with
    | .ok r => (m, r) :: compareModelsGo toolModels oracles stats now query rest
    | .error _ => compareModelsGo toolModels oracles stats now query rest

/-- The method `MultiModelResearchAssistant.compare_models` (lines 209-221): run
`research` once per tool-capable model; a per-model exception is caught,
printed and the model omitted from the returned dict. -/
def compare_models (toolModels : List PStr) (oracles : PStr → Nat → ModelResponse)
    (stats : PStr → Nat → StatRand) (now : PStr) (query : ResearchQuery) :
    List (PStr × ResearchResult) :=
  compareModelsGo toolModels oracles stats now query toolModels

/-- Success test for `Except`. -/
def isOkE : Except ε α → Bool
  | .ok _ => true
  | .error _ => false

/-- Decidable equality for `Except`, used to evaluate concrete runs. -/
instance {ε α : Type} [DecidableEq ε] [DecidableEq α] : DecidableEq (Except ε α)
  | .error x, .error y =>
    if h : x = y then isTrue (congrArg Except.error h)
    else isFalse (fun c => h (Except.error.inj c))
  | .error _, .ok _ => isFalse (fun c => Except.noConfusion c)
  | .ok _, .error _ => isFalse (fun c => Except.noConfusion c)
  | .ok x, .ok y =>
    if h : x = y then isTrue (congrArg Except.ok h)
    else isFalse (fun c => h (Except.ok.inj c))

/-! ### Helper lemmas and concrete scenario inputs -/

/-- A model response with no tool requests. -/
def oPlain : Nat → ModelResponse := fun _ => { content := pstr "hello", tool_calls := [] }

/-- A first response requesting one unknown tool, follow-up plain. -/
def tcBogus : ToolCall := { name := pstr "bogus", args := [], id := pstr "c1" }

/-- First response: one unregistered tool call; second response plain. -/
def oBogus : Nat → ModelResponse := fun k =>
  if k = 0 then { content := pstr "hi", tool_calls := [tcBogus] }
  else { content := pstr "done", tool_calls := [] }

/-- A well-formed `get_expert_opinion` call. -/
def tcExpert : ToolCall :=
  { name := pstr "get_expert_opinion", args := [(pstr "topic", PyVal.s (pstr "ai"))], id := pstr "c1" }

/-- A well-formed `search_papers` call. -/
def tcPapers : ToolCall :=
  { name := pstr "search_papers", args := [(pstr "topic", PyVal.s (pstr "ai"))], id := pstr "c2" }

/-- First response: two registered tool calls; the follow-up response itself
requests yet another tool (which the loop must ignore). -/
def oTwoTools : Nat → ModelResponse := fun k =>
  if k = 0 then { content := pstr "hi", tool_calls := [tcExpert, tcPapers] }
  else { content := pstr "- f1\n- f2\ndone",
         tool_calls := [{ name := pstr "x", args := [], id := pstr "z" }] }

/-- Fixed random draws for `get_statistics`. -/
def stFix : Nat → StatRand := fun _ => (10, 30, 1, 1000)

/-- A quick-depth query. -/
def qQuick : ResearchQuery := { topic := pstr "t", depth := pstr "quick", focus_areas := [] }

/-- A query whose depth is absent from the prompt table. -/
def qShallow : ResearchQuery := { topic := pstr "t", depth := pstr "shallow", focus_areas := [] }

/-- A configuration where openai has a key, anthropic has none (ollama needs
no credential): 2 of 3 providers are initializable. -/
def cfg2of3 : PyEnv :=
  { provider := pstr "openai"
    openai_api_key := some (pstr "sk")
    anthropic_api_key := none
    openai_model := pstr "m1"
    anthropic_model := pstr "m2"
    ollama_model := pstr "m3"
    ollama_base_url := pstr "u" }

/-- A content string longer than the 500-character summary budget. -/
def longContent : PStr := List.replicate 501 'a'

/-! ### C2 — the `calculate` tool -/

/-- Claim C2: for every input string, `calculate` returns a text (either a
`Result:` text or an `Error:` text) and never lets a fault escape;
`calculate("2 + 2")` is a text containing `4`; any expression the restricted
evaluator rejects (malformed, or using a symbol outside the allow-list)
yields an `Error:` text rather than raising; in particular
`calculate("invalid")` reports the undefined name. -/
theorem C2_calculate_total :
    (∀ s : PStr, pstr "Result: " <+: calculate s ∨ pstr "Error: " <+: calculate s) ∧
    calculate (pstr "2 + 2") = pstr "Result: 4" ∧
    '4' ∈ calculate (pstr "2 + 2") ∧
    (∀ s e, pyEvalExpr s = .error e → calculate s = pstr "Error: " ++ errMsg e) ∧
    calculate (pstr "invalid") = pstr "Error: name \x27invalid\x27 is not defined" := by
  refine ⟨?_, by decide, by decide, ?_, by decide⟩
  · intro s
    unfold calculate
    cases pyEvalExpr s
    · exact Or.inr ⟨_, rfl⟩
    · exact Or.inl ⟨_, rfl⟩
  · intro s e h
    unfold calculate
    rw [h]

/-- Witness for C2: the error branch realized at the concrete input
`"invalid"`. -/
theorem C2_calculate_total_witness :
    pyEvalExpr (pstr "invalid") = .error (.nameError (pstr "invalid")) ∧
    calculate (pstr "invalid") = pstr "Error: " ++ errMsg (.nameError (pstr "invalid")) :=
  ⟨by decide, C2_calculate_total.2.2.2.1 (pstr "invalid") (.nameError (pstr "invalid")) (by decide)⟩

/-! ### C7 — the `get_weather` tool -/

/-- Claim C7: for every city and every outcome of the two random draws,
`get_weather` returns a text that starts with the city name (hence contains
it) and contains the degree symbol; the condition and temperature vary with
the draws but the city is never omitted. -/
theorem C7_get_weather_city_and_degree :
    ∀ (city : PStr) (choice : Fin 4) (temp : Int),
      city <+: get_weather city choice temp ∧ '°' ∈ get_weather city choice temp := by
  intro city choice temp
  constructor
  · have h : get_weather city choice temp =
        city ++ (pstr ": " ++ conditions.getD choice.val [] ++ pstr ", " ++ intStr temp ++ pstr "°C") := by
      simp [get_weather, List.append_assoc]
    rw [h]
    exact ⟨_, rfl⟩
  · simp [get_weather, pstr]

/-! ### C6 — `search_papers` -/

/-- Claim C6 counterexample: the claim quantifies over every limit value, but a
negative limit follows Python slice semantics: `papers[:-1]` keeps 4 titles,
while `min(limit, 5)` (any clamping reading of the claim) would give 0
formatted titles for `limit = -1`. -/
theorem C6_search_papers_cex :
    (pySliceTo (-1) (papersList (pstr "quantum"))).length = 4 ∧
    min ((-1 : Int).toNat) 5 = 0 ∧ (4 : Nat) ≠ 0 ∧
    subStr (natStr 4) (search_papers (pstr "quantum") (-1)) = true := by
  refine ⟨by decide, by decide, by decide, by decide⟩

/-- Claim C6 amended: for every topic and every *nonnegative* limit,
`search_papers` lists exactly `min limit 5` deterministic formatted titles,
each mentioning the topic; the tool-layer default `limit = 5` yields all 5
titles.  (Negative limits follow Python slice semantics instead.) -/
theorem C6_search_papers_amended :
    ∀ (topic : PStr) (limit : Int), 0 ≤ limit →
      ((pySliceTo limit (papersList topic)).length = min limit.toNat 5 ∧
       ∀ p ∈ pySliceTo limit (papersList topic), topic <:+: p) ∧
      (pySliceTo 5 (papersList topic) = papersList topic ∧
       (papersList topic).length = 5) := by
  intro topic limit hl
  have hlen : (papersList topic).length = 5 := by simp [papersList]
  refine ⟨⟨?_, ?_⟩, ?_, hlen⟩
  · rw [pySliceTo, if_pos hl, List.length_take, hlen]
  · intro p hp
    have hp2 : p ∈ papersList topic := by
      rw [pySliceTo, if_pos hl] at hp
      exact List.mem_of_mem_take hp
    simp only [papersList, List.mem_cons, List.mem_singleton] at hp2
    rcases hp2 with rfl | rfl | rfl | rfl | rfl | h
    · exact ⟨[squote], [squote] ++ pstr " - Comprehensive Review (2024)", by simp⟩
    · exact ⟨pstr "Advances in ", pstr ": Recent Developments (2023)", by simp⟩
    · exact ⟨pstr "Understanding ", pstr ": A Practical Guide (2024)", by simp⟩
    · exact ⟨[], pstr " Applications in Industry (2023)", by simp⟩
    · exact ⟨pstr "Future of ", pstr ": Predictions and Trends (2024)", by simp⟩
    · cases h
  · rw [pySliceTo, if_pos (by decide : (0 : Int) ≤ 5)]
    rw [List.take_of_length_le (by rw [hlen]; decide)]

/-- Witness for C6 (amended): the nonnegative-limit case realized at
`topic = "ai"`, `limit = 3`. -/
theorem C6_search_papers_amended_witness :
    (0 : Int) ≤ 3 ∧
    (pySliceTo 3 (papersList (pstr "ai"))).length = min ((3 : Int)).toNat 5 ∧
    pySliceTo 5 (papersList (pstr "ai")) = papersList (pstr "ai") :=
  ⟨by decide, (C6_search_papers_amended (pstr "ai") 3 (by decide)).1.1,
   (C6_search_papers_amended (pstr "ai") 3 (by decide)).2.1⟩

/-! ### C4 — aggregate model initialization -/

/-- Claim C4: `get_all_models` is total (it catches every per-provider failure)
and its key set is exactly the providers whose `get_model` succeeds, so a
provider with a missing credential is omitted without raising; explicitly
requesting openai/anthropic without a credential is an error; in the
2-of-3-credentials configuration the available set is exactly those two
entries. -/
theorem C4_get_all_models :
    (∀ cfg : PyEnv, (get_all_models cfg).map Prod.fst =
        providersList.filter (fun p => isOkE (get_model cfg (some p) 0.7))) ∧
    (∀ (cfg : PyEnv) (t : ℚ), pyTruthy cfg.openai_api_key = false →
        get_model cfg (some (pstr "openai")) t =
          .error (pstr "OPENAI_API_KEY not set in environment")) ∧
    (∀ (cfg : PyEnv) (t : ℚ), pyTruthy cfg.anthropic_api_key = false →
        get_model cfg (some (pstr "anthropic")) t =
          .error (pstr "ANTHROPIC_API_KEY not set in environment")) ∧
    (get_all_models cfg2of3).map Prod.fst = [pstr "openai", pstr "ollama"] := by
  refine ⟨?_, ?_, ?_, by decide⟩
  · intro cfg
    unfold get_all_models providersList
    cases h1 : get_model cfg (some (pstr "openai")) 0.7 <;>
      cases h2 : get_model cfg (some (pstr "anthropic")) 0.7 <;>
        cases h3 : get_model cfg (some (pstr "ollama")) 0.7 <;>
          simp [List.filterMap, List.filter, h1, h2, h3, isOkE]
  · intro cfg t h
    unfold get_model
    dsimp only
    rw [if_neg (by decide : ¬(pstr "openai" = ([] : PStr)))]
    rw [if_pos rfl, h]
    simp
  · intro cfg t h
    unfold get_model
    dsimp only
    rw [if_neg (by decide : ¬(pstr "anthropic" = ([] : PStr)))]
    rw [if_neg (by decide : ¬(pstr "anthropic" = pstr "openai")), if_pos rfl, h]
    simp

/-- Witness for C4: the missing-credential branch realized on the concrete
2-of-3 configuration. -/
theorem C4_get_all_models_witness :
    pyTruthy cfg2of3.anthropic_api_key = false ∧
    get_model cfg2of3 (some (pstr "anthropic")) 0.7 =
      .error (pstr "ANTHROPIC_API_KEY not set in environment") :=
  ⟨by decide, C4_get_all_models.2.2.1 cfg2of3 0.7 (by decide)⟩

/-! ### C5 — key findings and summary -/

/-- A line that passes the bullet test is nonempty. -/
theorem bullet_ne_nil {l : PStr}
    (h : (isPre (pstr "-") l || isPre (pstr "•") l) = true) : l ≠ [] := by
  intro he
  subst he
  exact absurd h (by decide)

/-- The comprehension of lines 192-196 agrees with a map/filter/map
reading: provided the keep-test implies nonemptiness, the `l ≠ []`
truthiness conjunct is redundant and the comprehension is filter-then-map. -/
theorem filterMap_guard (f g : PStr → PStr) (q : PStr → Bool) (xs : List PStr)
    (hq : ∀ l, q l = true → l ≠ []) :
    xs.filterMap (fun x =>
      let l := f x
      if l ≠ [] ∧ q l then some (g l) else none)
      = ((xs.map f).filter q).map g := by
  induction xs with
  | nil => rfl
  | cons hd tl ih =>
    rw [List.filterMap_cons, List.map_cons, List.filter_cons]
    cases hb : q (f hd) with
    | true =>
      rw [if_pos ⟨hq _ hb, hb⟩]
      simp only [hb, if_true, List.map_cons]
      rw [ih]
    | false =>
      rw [if_neg (fun hc => by rw [hb] at hc; exact Bool.false_ne_true hc.2)]
      simp only [hb, Bool.false_eq_true, if_false]
      exact ih

/-- Claim C5: the extracted key findings are exactly the bullet lines of the
response text — stripped, marker removed — capped at 5; and the summary is
the text itself when its length is at most 500, else its first 500
characters with the `"..."` continuation marker. -/
theorem C5_findings_and_summary :
    ∀ content : PStr,
      extractFindings content = specKeyFindings content ∧
      (extractFindings content).length ≤ 5 ∧
      (content.length ≤ 500 → summaryOf content = content) ∧
      (500 < content.length → summaryOf content = content.take 500 ++ pstr "...") := by
  intro content
  refine ⟨?_, ?_, ?_, ?_⟩
  · unfold extractFindings specKeyFindings
    rw [filterMap_guard pyStripWs (pyLstrip (pstr "- •"))
      (fun l => isPre (pstr "-") l || isPre (pstr "•") l)
      (splitOnChar '\n' content) (fun _ h => bullet_ne_nil h)]
  · unfold extractFindings
    exact List.length_take_le _ _
  · intro h
    unfold summaryOf
    rw [if_neg (not_lt.mpr h)]
  · intro h
    unfold summaryOf
    rw [if_pos h]

/-- Witness for C5: both summary branches realized, at a short bulleted text
and at a 501-character text. -/
theorem C5_findings_and_summary_witness :
    extractFindings (pstr "- a\n- b") = specKeyFindings (pstr "- a\n- b") ∧
    (pstr "- a\n- b").length ≤ 500 ∧
    summaryOf (pstr "- a\n- b") = pstr "- a\n- b" ∧
    500 < longContent.length ∧
    summaryOf longContent = longContent.take 500 ++ pstr "..." :=
  ⟨(C5_findings_and_summary (pstr "- a\n- b")).1,
   by decide,
   (C5_findings_and_summary (pstr "- a\n- b")).2.2.1 (by decide),
   by unfold longContent; rw [List.length_replicate]; decide,
   (C5_findings_and_summary longContent).2.2.2
     (by unfold longContent; rw [List.length_replicate]; decide)⟩

/-! ### C3 — model selection -/

/-- Selection on an empty key list always raises. -/
theorem selectModel_nil (o : Option PStr) : selectModel o [] = .error .noCapable := by
  rcases o with _ | n
  · decide
  · unfold selectModel
    dsimp only
    rw [if_neg (fun hc => List.not_mem_nil n hc.2)]
    decide

/-- Claim C3 counterexample: Python truthiness of `model_name` (line 137) makes
an explicitly given empty-string model name fall through to the preference
order even when that name is a tool-capable key: with tool-capable models
`["", "openai"]` and explicit name `""`, the source selects `"openai"`, not
the explicitly named (and tool-capable) `""`. -/
theorem C3_selection_cex :
    selectModel (some []) [[], pstr "openai"] = .ok (pstr "openai") ∧
    ([] : PStr) ∈ [([] : PStr), pstr "openai"] ∧
    pstr "openai" ≠ ([] : PStr) ∧
    selectModel (some []) [[], pstr "openai"] ≠ .ok ([] : PStr) := by
  refine ⟨by decide, by decide, by decide, by decide⟩

/-- Claim C3 amended: an explicitly given *non-empty* tool-capable model name
is used; otherwise (no name, empty name, or a name that is not tool-capable)
the selection falls back, in fixed order, to `openai`, then `anthropic`,
then the first remaining tool-capable model; with no tool-capable model the
`ValueError` (`NoCapableModel`) is raised and `research` produces no
result. -/
theorem C3_selection_policy :
    (∀ (tm : List PStr) (n : PStr), n ≠ [] → n ∈ tm →
        selectModel (some n) tm = .ok n) ∧
    (∀ (tm : List PStr) (o : Option PStr),
        (o = none ∨ o = some [] ∨ ∃ n, o = some n ∧ n ∉ tm) →
        pstr "openai" ∈ tm → selectModel o tm = .ok (pstr "openai")) ∧
    (∀ (tm : List PStr) (o : Option PStr),
        (o = none ∨ o = some [] ∨ ∃ n, o = some n ∧ n ∉ tm) →
        pstr "openai" ∉ tm → pstr "anthropic" ∈ tm →
        selectModel o tm = .ok (pstr "anthropic")) ∧
    (∀ (m : PStr) (rest : List PStr) (o : Option PStr),
        (o = none ∨ o = some [] ∨ ∃ n, o = some n ∧ n ∉ m :: rest) →
        pstr "openai" ∉ m :: rest → pstr "anthropic" ∉ m :: rest →
        selectModel o (m :: rest) = .ok m) ∧
    (∀ o : Option PStr, selectModel o [] = .error .noCapable) ∧
    (∀ (oracle : Nat → ModelResponse) (stats : Nat → StatRand) (now : PStr)
        (q : ResearchQuery) (o : Option PStr),
        (researchRun [] oracle stats now q o).result = .error .noCapable) := by
  have hfb : ∀ (tm : List PStr) (o : Option PStr),
      (o = none ∨ o = some [] ∨ ∃ n, o = some n ∧ n ∉ tm) →
      selectModel o tm = selectFallback tm := by
    intro tm o ho
    rcases ho with rfl | rfl | ⟨n, rfl, hn⟩
    · rfl
    · unfold selectModel
      dsimp only
      rw [if_neg (fun hc => hc.1 rfl)]
    · unfold selectModel
      dsimp only
      rw [if_neg (fun hc => hn hc.2)]
  refine ⟨?_, ?_, ?_, ?_, selectModel_nil, ?_⟩
  · intro tm n hne hmem
    unfold selectModel
    dsimp only
    rw [if_pos ⟨hne, hmem⟩]
  · intro tm o ho hoa
    rw [hfb tm o ho]
    unfold selectFallback
    rw [if_pos hoa]
  · intro tm o ho hoa han
    rw [hfb tm o ho]
    unfold selectFallback
    rw [if_neg hoa, if_pos han]
  · intro m rest o ho hoa han
    rw [hfb _ o ho]
    unfold selectFallback
    rw [if_neg hoa, if_neg han]
  · intro oracle stats now q o
    unfold researchRun
    rw [selectModel_nil o]

/-- Witness for C3 (amended): explicit non-empty capable name used; the
anthropic fallback; the no-capable-model error. -/
theorem C3_selection_policy_witness :
    selectModel (some (pstr "x")) [pstr "anthropic", pstr "x"] = .ok (pstr "x") ∧
    selectModel none [pstr "z", pstr "anthropic"] = .ok (pstr "anthropic") ∧
    selectModel none [] = .error .noCapable :=
  ⟨C3_selection_policy.1 [pstr "anthropic", pstr "x"] (pstr "x") (by decide) (by decide),
   C3_selection_policy.2.2.1 [pstr "z", pstr "anthropic"] none (Or.inl rfl)
     (by decide) (by decide),
   C3_selection_policy.2.2.2.2.1 none⟩

/-! ### C8 — unknown research depth -/

/-- Claim C8: a query whose depth is absent from the prompt-template table
never yields a `ResearchResult`; when model selection succeeds the raised
fault is precisely the `KeyError` on the depth (no silent default depth is
substituted). -/
theorem C8_depth_fault :
    ∀ (tm : List PStr) (oracle : Nat → ModelResponse) (stats : Nat → StatRand)
      (now : PStr) (q : ResearchQuery) (o : Option PStr),
      lookupPrompt q.depth = none →
      isOkE (researchRun tm oracle stats now q o).result = false ∧
      (∀ used, selectModel o tm = .ok used →
        (researchRun tm oracle stats now q o).result = .error (.promptKey q.depth)) := by
  intro tm oracle stats now q o h
  unfold researchRun
  cases hs : selectModel o tm with
  | error e => exact ⟨rfl, fun used hu => Except.noConfusion hu⟩
  | ok used =>
    rw [h]
    exact ⟨rfl, fun _ _ => rfl⟩

/-- Witness for C8: the unknown depth `"shallow"` with one capable model. -/
theorem C8_depth_fault_witness :
    lookupPrompt qShallow.depth = none ∧
    (researchRun [pstr "openai"] oPlain stFix (pstr "now") qShallow none).result =
      .error (.promptKey qShallow.depth) :=
  ⟨rfl, (C8_depth_fault [pstr "openai"] oPlain stFix (pstr "now") qShallow none rfl).2
    (pstr "openai") (by decide)⟩

/-! ### The tool loop under successful execution -/

/-- When `processCalls` reports no fault, it appended exactly one
`ToolMessage` per requested call, in request order (the id sequence of the
appended messages is the id sequence of the requests), and recorded one
`sources` entry per call. -/
theorem processCalls_none (stats : Nat → StatRand) :
    ∀ (cs : List ToolCall) (i : Nat), (processCalls stats i cs).2.2 = none →
      (processCalls stats i cs).2.1 = cs.map reprCall ∧
      (processCalls stats i cs).1.length = cs.length ∧
      (processCalls stats i cs).1.map msgToolId = cs.map ToolCall.id ∧
      countToolMsgs (processCalls stats i cs).1 = cs.length := by
  intro cs
  induction cs with
  | nil => exact fun i _ => ⟨rfl, rfl, rfl, rfl⟩
  | cons tc rest ih =>
    intro i h
    cases hr : runResearchTool (stats i) tc.name tc.args with
    | error e =>
      exfalso
      have hx : (processCalls stats i (tc :: rest)).2.2 = some e := by
        unfold processCalls
        rw [hr]
      exact Option.noConfusion (hx.symm.trans h)
    | ok res =>
      have hx : processCalls stats i (tc :: rest) =
          (Msg.toolMsg res tc.id :: (processCalls stats (i + 1) rest).1,
           reprCall tc :: (processCalls stats (i + 1) rest).2.1,
           (processCalls stats (i + 1) rest).2.2) := by
        simp only [processCalls, hr]
      have h2 : (processCalls stats (i + 1) rest).2.2 = none := by
        rw [hx] at h
        exact h
      obtain ⟨a, b, c, d⟩ := ih (i + 1) h2
      rw [hx]
      refine ⟨?_, ?_, ?_, ?_⟩
      · rw [List.map_cons]
        exact congrArg _ a
      · rw [List.length_cons, List.length_cons, b]
      · rw [List.map_cons, List.map_cons, c]
        rfl
      · unfold countToolMsgs at d ⊢
        rw [List.filter_cons_of_pos rfl, List.length_cons, d, List.length_cons]

/-- Invariants of the `ResearchResult` construction of lines 199-207. -/
theorem mkResult_invariants (topic content : PStr) (sources : List PStr)
    (used now : PStr) :
    (mkResult topic content sources used now).key_findings ≠ [] ∧
    (mkResult topic content sources used now).sources_consulted ≠ [] ∧
    0 ≤ (mkResult topic content sources used now).confidence_score ∧
    (mkResult topic content sources used now).confidence_score ≤ 1 ∧
    (sources ≠ [] → (mkResult topic content sources used now).confidence_score = 0.85) ∧
    (sources = [] → (mkResult topic content sources used now).confidence_score = 0.75) := by
  unfold mkResult
  dsimp only
  refine ⟨?_, ?_, ?_, ?_, ?_, ?_⟩
  · split
    · simp
    · next h => exact h
  · split
    · simp
    · next h => exact h
  · split <;> norm_num
  · split <;> norm_num
  · intro hne
    rw [if_neg hne]
  · intro he
    rw [if_pos he]

/-! ### C9 — `ResearchResult` invariants -/

/-- Claim C9: every `ResearchResult` returned by `research` has nonempty
`key_findings` (falling back to `"Research completed"`), nonempty
`sources_consulted` (falling back to `"Direct model knowledge"`), and a
confidence score of exactly 0.85 when the first response requested at least
one tool and exactly 0.75 otherwise — in particular always within the
declared 0-1 bound. -/
theorem C9_result_invariants :
    ∀ (tm : List PStr) (oracle : Nat → ModelResponse) (stats : Nat → StatRand)
      (now : PStr) (q : ResearchQuery) (o : Option PStr) (r : ResearchResult),
      (researchRun tm oracle stats now q o).result = .ok r →
      r.key_findings ≠ [] ∧ r.sources_consulted ≠ [] ∧
      0 ≤ r.confidence_score ∧ r.confidence_score ≤ 1 ∧
      ((oracle 0).tool_calls ≠ [] → r.confidence_score = 0.85) ∧
      ((oracle 0).tool_calls = [] → r.confidence_score = 0.75) := by
  intro tm oracle stats now q o r hr
  unfold researchRun at hr
  rcases hsel : selectModel o tm with e | used <;> rw [hsel] at hr <;> (try dsimp only at hr)
  · exact Except.noConfusion hr
  · rcases hp : lookupPrompt q.depth with _ | fmt <;> rw [hp] at hr <;> (try dsimp only at hr)
    · exact Except.noConfusion hr
    · by_cases h0 : (oracle 0).tool_calls = []
      · rw [if_pos h0] at hr
        injection hr with hr2
        subst hr2
        obtain ⟨k1, k2, k3, k4, _, k6⟩ :=
          mkResult_invariants q.topic (oracle 0).content [] used now
        exact ⟨k1, k2, k3, k4, fun hne => absurd h0 hne, fun _ => k6 rfl⟩
      · rw [if_neg h0] at hr
        rcases hpc : (processCalls stats 0 (oracle 0).tool_calls).2.2 with _ | e <;>
          rw [hpc] at hr <;> (try dsimp only at hr)
        · injection hr with hr2
          subst hr2
          obtain ⟨a, _, _, _⟩ := processCalls_none stats (oracle 0).tool_calls 0 hpc
          have hsrc : (processCalls stats 0 (oracle 0).tool_calls).2.1 ≠ [] := by
            rw [a]
            simpa using h0
          obtain ⟨k1, k2, k3, k4, k5, _⟩ :=
            mkResult_invariants q.topic (oracle 1).content
              (processCalls stats 0 (oracle 0).tool_calls).2.1 used now
          exact ⟨k1, k2, k3, k4, fun _ => k5 hsrc, fun he => absurd he h0⟩
        · exact Except.noConfusion hr

/-- The result of the concrete no-tool run used as the C9 witness. -/
def rPlain : ResearchResult :=
  mkResult (pstr "t") (pstr "hello") [] (pstr "openai") (pstr "now")

/-- Witness for C9: the no-tool run, where the fallbacks and the 0.75 score
are realized. -/
theorem C9_result_invariants_witness :
    rPlain.key_findings ≠ [] ∧ rPlain.sources_consulted ≠ [] ∧
    0 ≤ rPlain.confidence_score ∧ rPlain.confidence_score ≤ 1 ∧
    rPlain.confidence_score = 0.75 := by
  have h := C9_result_invariants [pstr "openai"] oPlain stFix (pstr "now") qQuick none
    rPlain rfl
  exact ⟨h.1, h.2.1, h.2.2.1, h.2.2.2.1, h.2.2.2.2.2 rfl⟩

/-! ### C1 — the single-round tool-use loop -/

/-- Claim C1 counterexample: a model response whose single tool request names
an unregistered tool makes the loop raise (`globals()` `KeyError`, line 177)
after appending zero `ToolResults` and before the follow-up call: with
`N = 1` requests the run makes only the first model call (no follow-up),
appends 0 (not N) tool messages, and produces no final answer — contradicting
the claim that exactly N results are appended and the follow-up is issued
exactly once whenever `N ≥ 1`. -/
theorem C1_loop_cex :
    (oBogus 0).tool_calls.length = 1 ∧
    (researchRun [pstr "openai"] oBogus stFix (pstr "now") qQuick none).modelCalls = 1 ∧
    countToolMsgs
      (researchRun [pstr "openai"] oBogus stFix (pstr "now") qQuick none).transcript = 0 ∧
    isOkE (researchRun [pstr "openai"] oBogus stFix (pstr "now") qQuick none).result = false ∧
    ¬(countToolMsgs
        (researchRun [pstr "openai"] oBogus stFix (pstr "now") qQuick none).transcript =
          (oBogus 0).tool_calls.length ∧
      (researchRun [pstr "openai"] oBogus stFix (pstr "now") qQuick none).modelCalls = 2) := by
  refine ⟨by decide, by decide, by decide, by decide, by decide⟩

/-- Claim C1 amended: provided every requested tool call executes successfully
(its name resolves in the registered-tool table and its arguments validate —
`processCalls` reports no fault), the loop appends exactly N `ToolResults`,
one per request and in request order (the id sequence of the appended tool
messages equals the id sequence of the requests), before the single
follow-up model call; with N = 0 the first response is final and no
follow-up is issued; the follow-up response is terminal even if it requests
tools (the conclusion holds for every oracle, in particular when
`(oracle 1).tool_calls ≠ []`, and exactly 2 model calls are made). -/
theorem C1_loop_round_trip :
    ∀ (tm : List PStr) (oracle : Nat → ModelResponse) (stats : Nat → StatRand)
      (now : PStr) (q : ResearchQuery) (o : Option PStr) (used : PStr)
      (fmt : PStr → PStr → PStr),
      selectModel o tm = .ok used →
      lookupPrompt q.depth = some fmt →
      ((oracle 0).tool_calls = [] →
        (researchRun tm oracle stats now q o).modelCalls = 1 ∧
        (researchRun tm oracle stats now q o).transcript =
          [Msg.human (fmt q.topic (focusStr q.focus_areas)), Msg.ai (oracle 0)] ∧
        (researchRun tm oracle stats now q o).result =
          .ok (mkResult q.topic (oracle 0).content [] used now)) ∧
      ((processCalls stats 0 (oracle 0).tool_calls).2.2 = none →
       (oracle 0).tool_calls ≠ [] →
        (researchRun tm oracle stats now q o).modelCalls = 2 ∧
        (researchRun tm oracle stats now q o).transcript =
          [Msg.human (fmt q.topic (focusStr q.focus_areas)), Msg.ai (oracle 0)] ++
            (processCalls stats 0 (oracle 0).tool_calls).1 ∧
        countToolMsgs (researchRun tm oracle stats now q o).transcript =
          (oracle 0).tool_calls.length ∧
        (processCalls stats 0 (oracle 0).tool_calls).1.length =
          (oracle 0).tool_calls.length ∧
        ((processCalls stats 0 (oracle 0).tool_calls).1).map msgToolId =
          (oracle 0).tool_calls.map ToolCall.id ∧
        (researchRun tm oracle stats now q o).result =
          .ok (mkResult q.topic (oracle 1).content
            ((oracle 0).tool_calls.map reprCall) used now)) := by
  intro tm oracle stats now q o used fmt hsel hp
  unfold researchRun
  rw [hsel, hp]
  dsimp only
  constructor
  · intro h0
    rw [if_pos h0]
    exact ⟨rfl, rfl, rfl⟩
  · intro hnone hne
    rw [if_neg hne]
    rw [hnone]
    dsimp only
    obtain ⟨a, b, c, d⟩ := processCalls_none stats (oracle 0).tool_calls 0 hnone
    refine ⟨rfl, rfl, ?_, b, c, ?_⟩
    · unfold countToolMsgs
      rw [List.filter_append, List.length_append]
      unfold countToolMsgs at d
      rw [d]
      simp [List.filter]
    · rw [a]

/-- Witness for C1 (amended): two registered tool calls whose results are
appended in order; the follow-up response itself requests a tool and is
still terminal (exactly 2 model calls). -/
theorem C1_loop_round_trip_witness :
    (processCalls stFix 0 (oTwoTools 0).tool_calls).2.2 = none ∧
    (oTwoTools 0).tool_calls ≠ [] ∧
    (oTwoTools 1).tool_calls ≠ [] ∧
    (researchRun [pstr "openai"] oTwoTools stFix (pstr "now") qQuick none).modelCalls = 2 ∧
    countToolMsgs
      (researchRun [pstr "openai"] oTwoTools stFix (pstr "now") qQuick none).transcript =
      (oTwoTools 0).tool_calls.length ∧
    ((processCalls stFix 0 (oTwoTools 0).tool_calls).1).map msgToolId =
      (oTwoTools 0).tool_calls.map ToolCall.id := by
  have h := (C1_loop_round_trip [pstr "openai"] oTwoTools stFix (pstr "now") qQuick none
    (pstr "openai") promptQuick (by decide) rfl).2 (by decide) (by decide)
  exact ⟨by decide, by decide, by decide, h.1, h.2.2.1, h.2.2.2.2.1⟩

/-! ### C10 — `compare_models` -/

/-- Claim C10: `compare_models` is total over the tool-capable model list (a
per-model failure of `research` is caught, so one model failing never
prevents the rest from running): its key sequence is exactly the
tool-capable names whose `research` run succeeds — hence a subset of the
tool-capable names, with every model whose run raises absent — and every
returned entry is the successful result of that model's run. -/
theorem C10_compare_models :
    ∀ (tm : List PStr) (oracles : PStr → Nat → ModelResponse)
      (stats : PStr → Nat → StatRand) (now : PStr) (q : ResearchQuery),
      (compare_models tm oracles stats now q).map Prod.fst =
        tm.filter (fun m =>
          isOkE (researchRun tm (oracles m) (stats m) now q (some m)).result) ∧
      (∀ m r, (m, r) ∈ compare_models tm oracles stats now q →
        m ∈ tm ∧
        (researchRun tm (oracles m) (stats m) now q (some m)).result = .ok r) := by
  intro tm oracles stats now q
  have key : ∀ rest : List PStr,
      (compareModelsGo tm oracles stats now q rest).map Prod.fst =
        rest.filter (fun m =>
          isOkE (researchRun tm (oracles m) (stats m) now q (some m)).result) ∧
      (∀ m r, (m, r) ∈ compareModelsGo tm oracles stats now q rest →
        m ∈ rest ∧
        (researchRun tm (oracles m) (stats m) now q (some m)).result = .ok r) := by
    intro rest
    induction rest with
    | nil => exact ⟨rfl, fun m r h => absurd h (List.not_mem_nil _)⟩
    | cons hd tl ih =>
      cases hres : (researchRun tm (oracles hd) (stats hd) now q (some hd)).result with
      | ok rr =>
        have hgo : compareModelsGo tm oracles stats now q (hd :: tl) =
            (hd, rr) :: compareModelsGo tm oracles stats now q tl := by
          simp only [compareModelsGo, hres]
        constructor
        · rw [hgo, List.map_cons, List.filter_cons_of_pos (by rw [hres]; rfl), ih.1]
        · intro m r hm
          rw [hgo] at hm
          rcases List.mem_cons.mp hm with he | ht
          · have h1 := congrArg Prod.fst he
            have h2 := congrArg Prod.snd he
            dsimp only at h1 h2
            subst h1
            subst h2
            exact ⟨List.mem_cons_self _ _, hres⟩
          · obtain ⟨hmem, hok⟩ := ih.2 m r ht
            exact ⟨List.mem_cons_of_mem hd hmem, hok⟩
      | error e =>
        have hgo : compareModelsGo tm oracles stats now q (hd :: tl) =
            compareModelsGo tm oracles stats now q tl := by
          simp only [compareModelsGo, hres]
        constructor
        · rw [hgo, List.filter_cons_of_neg (by rw [hres]; exact Bool.false_ne_true), ih.1]
        · intro m r hm
          rw [hgo] at hm
          obtain ⟨hmem, hok⟩ := ih.2 m r hm
          exact ⟨List.mem_cons_of_mem hd hmem, hok⟩
  exact ⟨key tm |>.1, key tm |>.2⟩

/-- The tool-capable key list of the C10 witness scenario. -/
def tmPair : List PStr := [pstr "openai", pstr "anthropic"]

/-- Per-model oracles for the C10 witness: the openai run requests an
unregistered tool (so its `research` raises and is skipped); the anthropic
run answers without tools (so it succeeds). -/
def orPair : PStr → Nat → ModelResponse := fun m =>
  if m = pstr "openai" then oBogus else oPlain

/-- Per-model random draws for the C10 witness. -/
def stPair : PStr → Nat → StatRand := fun _ => stFix

/-- The successful result of the anthropic run in the C10 witness. -/
def rAnth : ResearchResult :=
  mkResult (pstr "t") (pstr "hello") [] (pstr "anthropic") (pstr "now")

/-- Witness for C10: with the openai run failing and the anthropic run
succeeding, the returned mapping contains exactly the anthropic entry, and
the theorem recovers membership in the key list and the underlying
successful run. -/
theorem C10_compare_models_witness :
    compare_models tmPair orPair stPair (pstr "now") qQuick =
      [(pstr "anthropic", rAnth)] ∧
    pstr "anthropic" ∈ tmPair ∧
    (researchRun tmPair (orPair (pstr "anthropic")) (stPair (pstr "anthropic"))
      (pstr "now") qQuick (some (pstr "anthropic"))).result = .ok rAnth := by
  have hc : compare_models tmPair orPair stPair (pstr "now") qQuick =
      [(pstr "anthropic", rAnth)] := rfl
  have h := (C10_compare_models tmPair orPair stPair (pstr "now") qQuick).2
    (pstr "anthropic") rAnth (hc ▸ List.mem_singleton_self _)
  exact ⟨hc, h.1, h.2⟩
